import Mathlib

set_option maxRecDepth 10000

/-!
Verification of the scoring core of the Synapse repository.

The embedded code is `src/core_logic/matcher.py` (match scoring) and the
inline "comprehensive resume score" block of `src/app.py` (lines 628-653,
duplicated at lines 1022-1049).

Modelling conventions:
* Python dynamic values are modelled by `PyVal` (floats are omitted; no
  claim involves a float-valued resume field).
* Real-number arithmetic (cosine similarity, ratios) is modelled exactly
  over `ℚ`; Python `int()` applied to such values is truncation toward
  zero, modelled by `pyTrunc`.
* The sklearn TF-IDF pipeline is external library code.  Its outcome is
  abstracted by `PipelineOutcome`: `success sim` carries the cosine
  similarity of the two vectors, `vecFailure` is the `ValueError` branch
  of `fit_transform` (degenerate vocabulary), and `otherError` stands for
  any other exception raised inside the lines 44-61 pipeline.
* Text helper functions (`str.lower`, `str.strip`, the regex word runs of
  `re.findall` with a word-character class, substring membership) are
  modelled faithfully on the Basic Latin and Latin-1 character ranges,
  which cover every string manipulated in this development.
-/

/-- A Python value, restricted to the shapes produced by the JSON resume
extraction (floats omitted). -/
inductive PyVal where
  | none
  | bool (b : Bool)
  | int (n : Int)
  | str (s : String)
  | list (xs : List PyVal)
  | dict (kvs : List (String × PyVal))

/-- Python truthiness of a value. -/
def PyVal.truthy : PyVal → Bool
  | .none => false
  | .bool b => b
  | .int n => n != 0
  | .str s => s != ""
  | .list xs => !xs.isEmpty
  | .dict kvs => !kvs.isEmpty

/-- A single-quote character, used by the Python `repr` of strings. -/
def sglQuote : String := String.singleton (Char.ofNat 39)

mutual

/-- Python `repr()` restricted to the modelled values. -/
def pyRepr : PyVal → String
  | .none => "None"
  | .bool true => "True"
  | .bool false => "False"
  | .int n => toString n
  | .str s => sglQuote ++ s ++ sglQuote
  | .list xs => "[" ++ pyReprSeq xs ++ "]"
  | .dict kvs => "\x7b" ++ pyReprPairs kvs ++ "\x7d"

/-- Comma-separated `repr`s of the elements of a Python list. -/
def pyReprSeq : List PyVal → String
  | [] => ""
  | [v] => pyRepr v
  | v :: vs => pyRepr v ++ ", " ++ pyReprSeq vs

/-- Comma-separated `key: value` `repr`s of the entries of a Python dict. -/
def pyReprPairs : List (String × PyVal) → String
  | [] => ""
  | [(k, v)] => sglQuote ++ k ++ sglQuote ++ ": " ++ pyRepr v
  | (k, v) :: kvs => sglQuote ++ k ++ sglQuote ++ ": " ++ pyRepr v ++ ", " ++ pyReprPairs kvs

end

/-- Python `str()`: a string maps to itself, any other value to its `repr`
(`str(None)` is the four-character string `"None"`). -/
def pyStr (v : PyVal) : String :=
  match v with
  | .str s => s
  | v => pyRepr v

/-- Python `a or b`: `a` if truthy, else `b`. -/
def pyOr (a b : PyVal) : PyVal := if a.truthy then a else b

/-- Python `d.get(k, default)` on a dict given as its entry list. -/
def pyGet (kvs : List (String × PyVal)) (k : String) (d : PyVal) : PyVal :=
  match List.lookup k kvs with
  | some v => v
  | Option.none => d

/-- A resume record: the entries of the Python dict handed to the scoring
functions. -/
abbrev Resume := List (String × PyVal)

/-- Python `str.isspace`-style whitespace relevant to `str.strip`. -/
def pyIsSpace (c : Char) : Bool :=
  c == ' ' || c == '\t' || c == '\n' || c == '\r' || c == '\x0b' || c == '\x0c'

/-- Python `str.strip()` on a character list: drop whitespace from both
ends. -/
def pyStripList (l : List Char) : List Char :=
  ((l.dropWhile pyIsSpace).reverse.dropWhile pyIsSpace).reverse

/-- Python `str.strip()`. -/
def pyStripStr (s : String) : String := String.mk (pyStripList s.toList)

/-- The uppercase-to-lowercase character table of Python `str.lower`
restricted to Basic Latin and Latin-1 (`A`-`Z`, `À`-`Ö`, `Ø`-`Þ`; the
multiplication sign `×` is not a letter and is absent). -/
def lowerPairs : List (Char × Char) :=
  [('A', 'a'), ('B', 'b'), ('C', 'c'), ('D', 'd'), ('E', 'e'), ('F', 'f'),
   ('G', 'g'), ('H', 'h'), ('I', 'i'), ('J', 'j'), ('K', 'k'), ('L', 'l'),
   ('M', 'm'), ('N', 'n'), ('O', 'o'), ('P', 'p'), ('Q', 'q'), ('R', 'r'),
   ('S', 's'), ('T', 't'), ('U', 'u'), ('V', 'v'), ('W', 'w'), ('X', 'x'),
   ('Y', 'y'), ('Z', 'z'),
   ('À', 'à'), ('Á', 'á'), ('Â', 'â'), ('Ã', 'ã'), ('Ä', 'ä'), ('Å', 'å'),
   ('Æ', 'æ'), ('Ç', 'ç'), ('È', 'è'), ('É', 'é'), ('Ê', 'ê'), ('Ë', 'ë'),
   ('Ì', 'ì'), ('Í', 'í'), ('Î', 'î'), ('Ï', 'ï'), ('Ð', 'ð'), ('Ñ', 'ñ'),
   ('Ò', 'ò'), ('Ó', 'ó'), ('Ô', 'ô'), ('Õ', 'õ'), ('Ö', 'ö'), ('Ø', 'ø'),
   ('Ù', 'ù'), ('Ú', 'ú'), ('Û', 'û'), ('Ü', 'ü'), ('Ý', 'ý'), ('Þ', 'þ')]

/-- Python `str.lower` on one character (Basic Latin and Latin-1). -/
def pyLowerChar (c : Char) : Char :=
  match List.lookup c lowerPairs with
  | some d => d
  | Option.none => c

/-- Python `str.lower`. -/
def pyLowerStr (s : String) : String := String.mk (s.toList.map pyLowerChar)

/-- The word-character class of Python regular expressions (`\w`),
restricted to Basic Latin and Latin-1: ASCII alphanumerics, the
underscore, and the Latin-1 letters `À`-`ÿ` minus `×` and `÷`. -/
def pyIsWordChar (c : Char) : Bool :=
  c.isAlphanum || c == '_' ||
    (192 ≤ c.toNat && c.toNat ≤ 255 && c.toNat != 215 && c.toNat != 247)

/-- Accumulator pass splitting a character list into maximal runs of
characters satisfying `p` (the accumulator holds the current run,
reversed). -/
def runsBy (p : Char → Bool) : List Char → List Char → List String
  | [], acc => if acc.isEmpty then [] else [String.mk acc.reverse]
  | c :: cs, acc =>
    if p c then runsBy p cs (c :: acc)
    else if acc.isEmpty then runsBy p cs acc
    else String.mk acc.reverse :: runsBy p cs []

/-- Python `re.findall` of a word-run pattern over a string: the maximal
runs of word characters, in order. -/
def pyWordRuns (s : String) : List String := runsBy pyIsWordChar s.toList []

/-- Maximal runs of strictly alphanumeric characters (no underscore),
used for reading the claim text literally. -/
def alnumRuns (s : String) : List String := runsBy Char.isAlphanum s.toList []

/-- Bool test: `needle` occurs as a contiguous sublist of `hay` (the empty
needle always occurs). -/
def isPySub : List Char → List Char → Bool
  | n, [] => n.isEmpty
  | n, c :: t => n.isPrefixOf (c :: t) || isPySub n t

/-- Python substring membership `needle in hay`. -/
def pyContains (hay needle : String) : Bool := isPySub needle.toList hay.toList

/-- Python `int()` on an exact rational: truncation toward zero. -/
def pyTrunc (q : ℚ) : Int := if 0 ≤ q then ⌊q⌋ else -⌊-q⌋

/-- The skills field lookup of matcher.py (lines 78, 136, 168):
`resume_data.get("skills") or resume_data.get("skills_extracted") or
resume_data.get("keywords") or []`. -/
def skillsField (resume_data : Resume) : PyVal :=
  pyOr (pyOr (pyOr (pyGet resume_data "skills" .none)
    (pyGet resume_data "skills_extracted" .none))
    (pyGet resume_data "keywords" .none)) (.list [])

/-- The fragments one work-experience entry contributes
(matcher.py lines 85-91): `title`, `company`, `description` for a dict
entry, the string itself for a string entry, nothing otherwise. -/
def expEntryParts : PyVal → List PyVal
  | .dict kvs =>
    [pyGet kvs "title" (.str ""), pyGet kvs "company" (.str ""),
     pyGet kvs "description" (.str "")]
  | .str s => [.str s]
  | _ => []

/-- The fragments one education entry contributes (matcher.py lines
96-102): `degree`, `institution`, `field`. -/
def eduEntryParts : PyVal → List PyVal
  | .dict kvs =>
    [pyGet kvs "degree" (.str ""), pyGet kvs "institution" (.str ""),
     pyGet kvs "field" (.str "")]
  | .str s => [.str s]
  | _ => []

/-- The fragments one project entry contributes (matcher.py lines
107-112): `name`, `description`. -/
def projEntryParts : PyVal → List PyVal
  | .dict kvs => [pyGet kvs "name" (.str ""), pyGet kvs "description" (.str "")]
  | .str s => [.str s]
  | _ => []

/-- The experience field lookup of matcher.py line 83:
`resume_data.get("experience") or resume_data.get("work_experience") or []`. -/
def expField (resume_data : Resume) : PyVal :=
  pyOr (pyOr (pyGet resume_data "experience" .none)
    (pyGet resume_data "work_experience" .none)) (.list [])

/-- The education field lookup of matcher.py line 94. -/
def eduField (resume_data : Resume) : PyVal :=
  pyOr (pyGet resume_data "education" .none) (.list [])

/-- The projects field lookup of matcher.py line 105. -/
def projField (resume_data : Resume) : PyVal :=
  pyOr (pyGet resume_data "projects" .none) (.list [])

/-- The summary field lookup of matcher.py line 115:
`resume_data.get("summary") or resume_data.get("objective") or ""`. -/
def summaryField (resume_data : Resume) : PyVal :=
  pyOr (pyOr (pyGet resume_data "summary" .none)
    (pyGet resume_data "objective" .none)) (.str "")

/-- The certifications field lookup of matcher.py line 120. -/
def certsField (resume_data : Resume) : PyVal :=
  pyOr (pyGet resume_data "certifications" .none) (.list [])

/-- The raw parts the skills section adds to `text_parts` (matcher.py
lines 78-80): each element stringified with `str()`, or nothing when the
field is not a list. -/
def skillParts (resume_data : Resume) : List PyVal :=
  match skillsField resume_data with
  | .list xs => xs.map (fun s => PyVal.str (pyStr s))
  | _ => []

/-- The raw parts the experience section adds to `text_parts`
(matcher.py lines 83-91). -/
def expParts (resume_data : Resume) : List PyVal :=
  match expField resume_data with
  | .list xs => (xs.map expEntryParts).flatten
  | _ => []

/-- The raw parts the education section adds to `text_parts`
(matcher.py lines 94-102). -/
def eduParts (resume_data : Resume) : List PyVal :=
  match eduField resume_data with
  | .list xs => (xs.map eduEntryParts).flatten
  | _ => []

/-- The raw parts the projects section adds to `text_parts`
(matcher.py lines 105-112). -/
def projParts (resume_data : Resume) : List PyVal :=
  match projField resume_data with
  | .list xs => (xs.map projEntryParts).flatten
  | _ => []

/-- The raw part the summary section adds to `text_parts` (matcher.py
lines 115-117): `str(summary)` when the field is truthy. -/
def sumParts (resume_data : Resume) : List PyVal :=
  if (summaryField resume_data).truthy then
    [PyVal.str (pyStr (summaryField resume_data))]
  else []

/-- The raw parts the certifications section adds to `text_parts`
(matcher.py lines 120-122). -/
def certParts (resume_data : Resume) : List PyVal :=
  match certsField resume_data with
  | .list xs => xs.map (fun c => PyVal.str (pyStr c))
  | _ => []

/-- `_extract_resume_text` from src/core_logic/matcher.py lines 69-126.
The argument is the entry list of the `resume_data` dict, so the
function's `isinstance(resume_data, dict)` test always succeeds.
`text_parts` collects the six sections in source order; line 125 then
keeps the truthy raw parts, stringifies and strips them, and line 126
joins them with single spaces. -/
def extract_resume_text (resume_data : Resume) : String :=
  let text_parts := skillParts resume_data ++ expParts resume_data
    ++ eduParts resume_data ++ projParts resume_data
    ++ sumParts resume_data ++ certParts resume_data
  let clean_parts :=
    (text_parts.filter PyVal.truthy).map (fun p => pyStripStr (pyStr p))
  String.intercalate " " clean_parts

/-- Normalization applied to one skill by `_calculate_skill_boost` and
`_fallback_keyword_match`: `str(s).lower().strip()`. -/
def normSkill (s : PyVal) : String := pyStripStr (pyLowerStr (pyStr s))

/-- `_calculate_skill_boost` from src/core_logic/matcher.py lines 129-157.
The Python `set(...)` of normalized truthy skills is modelled by `dedup`
of the comprehension list (only its cardinality and membership are used);
the function returns `int(matches / len(set) * 15)`, or 0 when the skills
field is not a list (every such path in the Python code, including the
blanket `except`, yields 0).  The Python return value
`int(match_ratio * 15)` truncates the nonnegative exact rational
`matches * 15 / len(set)`, which is the natural floor division below
(the claim theorems restate it as `pyTrunc` of the fraction). -/
def calculate_skill_boost (resume_data : Resume) (job_text : String) : Int :=
  match skillsField resume_data with
  | .list xs =>
    let resume_skills := ((xs.filter PyVal.truthy).map normSkill).dedup
    let job_text_lower := pyLowerStr job_text
    let nMatches :=
      (resume_skills.filter (fun skill => pyContains job_text_lower skill)).length
    if resume_skills.isEmpty then 0
    else (((15 * nMatches) / resume_skills.length : ℕ) : Int)
  | _ => 0

/-- The distinct normalized skill collection of `_calculate_skill_boost`:
`set(str(s).lower().strip() for s in skills if s)`, empty when the skills
field is not a list. -/
def boostSkillSet (resume_data : Resume) : List String :=
  match skillsField resume_data with
  | .list xs => ((xs.filter PyVal.truthy).map normSkill).dedup
  | _ => []

/-- The match fraction the skill-overlap boost is built from: the number
of distinct normalized skills occurring as substrings of the lowercased
job text, divided by the number of distinct normalized skills. -/
def skillMatchFraction (resume_data : Resume) (job_text : String) : ℚ :=
  (((boostSkillSet resume_data).filter
      (fun sk => pyContains (pyLowerStr job_text) sk)).length : ℚ)
    / ((boostSkillSet resume_data).length : ℚ)

/-- `_fallback_keyword_match` from src/core_logic/matcher.py lines
160-187.  Skills are kept as a list (duplicates retained); the job text
is split into word runs, each run stripped then lowercased, and the
Python `set(...)` of them is modelled by `dedup`.  The Python return
value `int(min(100, (overlap / max(len, 1)) * 100))` truncates the
nonnegative exact rational `min(100, 100 * overlap / max(len, 1))`,
which is the natural-number expression below (the claim theorems restate
it as `pyTrunc` of the fraction). -/
def fallback_keyword_match (resume_data : Resume) (job_text : String) : Int :=
  match skillsField resume_data with
  | .list xs =>
    let resume_skills := (xs.filter PyVal.truthy).map normSkill
    let job_words :=
      ((pyWordRuns job_text).map (fun w => pyLowerStr (pyStripStr w))).dedup
    if resume_skills.isEmpty || job_words.isEmpty then 0
    else
      let overlap :=
        (resume_skills.filter (fun skill => job_words.contains skill)).length
      ((min 100 ((100 * overlap) / max resume_skills.length 1) : ℕ) : Int)
  | _ => 0

/-- Outcome of the external sklearn vectorize/similarity pipeline
(matcher.py lines 33-61): success with the cosine similarity of the two
TF-IDF vectors, the `ValueError` of `fit_transform` (degenerate
vocabulary), or any other exception inside the pipeline. -/
inductive PipelineOutcome where
  | success (sim : ℚ)
  | vecFailure
  | otherError

/-- A pipeline outcome the sklearn library can actually produce: the
cosine similarity of two nonnegative TF-IDF vectors lies in `[0, 1]`. -/
def PipelineOutcome.valid : PipelineOutcome → Prop
  | .success sim => 0 ≤ sim ∧ sim ≤ 1
  | _ => True

/-- The combined job text of matcher.py line 27:
`f"{job_description} {job_requirements}".strip()`. -/
def combinedJobText (job_description job_requirements : String) : String :=
  pyStripStr (job_description ++ " " ++ job_requirements)

/-- `calculate_match_score` from src/core_logic/matcher.py lines 10-66,
abstracted over the pipeline outcome `o`.  On success the score is
`min(100, int(similarity * 100) + skill_boost)`; the `ValueError` branch
(line 47) calls the fallback on the stripped combined job text, the
blanket `except` branch (line 66) on the unstripped
`f"{job_description} {job_requirements}"`. -/
def calculate_match_score (o : PipelineOutcome) (resume_data : Resume)
    (job_description job_requirements : String) : Int :=
  let resume_text := extract_resume_text resume_data
  let job_text := combinedJobText job_description job_requirements
  if resume_text == "" || job_text == "" then 0
  else
    match o with
    | .success sim =>
      let base_score := pyTrunc (sim * 100)
      let skill_boost := calculate_skill_boost resume_data job_text
      min 100 (base_score + skill_boost)
    | .vecFailure => fallback_keyword_match resume_data job_text
    | .otherError =>
      fallback_keyword_match resume_data
        (job_description ++ " " ++ job_requirements)

/-- The per-section count of the completeness block (src/app.py lines
634-650): `len(x)` when the field is a list, else `1 if x else 0`. -/
def sectionCount (v : PyVal) : Int :=
  match v with
  | .list xs => xs.length
  | v => if v.truthy then 1 else 0

/-- The inline "comprehensive resume score" block of src/app.py lines
628-653 (duplicated verbatim at lines 1022-1049): five independently
capped contributions, the total capped at 100.  The section fields are
read with `analysis_result.get(key, [])`. -/
def compute_completeness_score (analysis_result : Resume) : Int :=
  let skills := pyGet analysis_result "skills" (.list [])
  let work_exp := pyGet analysis_result "work_experience" (.list [])
  let education := pyGet analysis_result "education" (.list [])
  let certifications := pyGet analysis_result "certifications" (.list [])
  let projects := pyGet analysis_result "projects" (.list [])
  let score : Int :=
    min 30 (sectionCount skills * 3) + min 25 (sectionCount work_exp * 8)
    + min 20 (sectionCount education * 10)
    + min 15 (sectionCount certifications * 5)
    + min 10 (sectionCount projects * 5)
  min 100 score

/-- Coercion described by claim C7: non-string fields become the empty
string. -/
def coerceStr : PyVal → String
  | .str s => s
  | _ => ""

/-- The profile flattener as claim C7 words it: every fragment coerced to
a string (non-strings become empty, never the literal text of `repr`),
every fragment trimmed, empty fragments dropped, then joined with single
spaces. -/
def flattenSpec (resume_data : Resume) : String :=
  let skillFrs : List String :=
    match skillsField resume_data with
    | .list xs => xs.map coerceStr
    | _ => []
  let expFrs : List String :=
    match expField resume_data with
    | .list xs => (xs.map (fun e => (expEntryParts e).map coerceStr)).flatten
    | _ => []
  let eduFrs : List String :=
    match eduField resume_data with
    | .list xs => (xs.map (fun e => (eduEntryParts e).map coerceStr)).flatten
    | _ => []
  let projFrs : List String :=
    match projField resume_data with
    | .list xs => (xs.map (fun e => (projEntryParts e).map coerceStr)).flatten
    | _ => []
  let sumFrs : List String :=
    if (summaryField resume_data).truthy then [coerceStr (summaryField resume_data)]
    else []
  let certFrs : List String :=
    match certsField resume_data with
    | .list xs => xs.map coerceStr
    | _ => []
  let allFrs := skillFrs ++ expFrs ++ eduFrs ++ projFrs ++ sumFrs ++ certFrs
  String.intercalate " " ((allFrs.map pyStripStr).filter (fun s => s != ""))

/-- Skill fragments actually produced by the flattener: each skill is
stringified with Python `str()` (so a `None` skill yields the literal
four-character fragment), fragments whose string form is empty are
dropped, the rest are trimmed. -/
def skillFrags (resume_data : Resume) : List String :=
  match skillsField resume_data with
  | .list xs => ((xs.map pyStr).filter (fun s => s != "")).map pyStripStr
  | _ => []

/-- Experience fragments actually produced by the flattener: per entry,
its raw `title`, `company`, `description` values (string entries stand
for themselves), falsy values dropped, the rest stringified and trimmed. -/
def expFrags (resume_data : Resume) : List String :=
  match expField resume_data with
  | .list xs =>
    (xs.map (fun e => ((expEntryParts e).filter PyVal.truthy).map
      (fun p => pyStripStr (pyStr p)))).flatten
  | _ => []

/-- Education fragments actually produced by the flattener. -/
def eduFrags (resume_data : Resume) : List String :=
  match eduField resume_data with
  | .list xs =>
    (xs.map (fun e => ((eduEntryParts e).filter PyVal.truthy).map
      (fun p => pyStripStr (pyStr p)))).flatten
  | _ => []

/-- Project fragments actually produced by the flattener. -/
def projFrags (resume_data : Resume) : List String :=
  match projField resume_data with
  | .list xs =>
    (xs.map (fun e => ((projEntryParts e).filter PyVal.truthy).map
      (fun p => pyStripStr (pyStr p)))).flatten
  | _ => []

/-- Summary fragment actually produced by the flattener: the stringified
summary when the field is truthy and its string form nonempty, trimmed. -/
def summaryFrags (resume_data : Resume) : List String :=
  ((if (summaryField resume_data).truthy then [pyStr (summaryField resume_data)]
    else []).filter (fun s => s != "")).map pyStripStr

/-- Certification fragments actually produced by the flattener. -/
def certFrags (resume_data : Resume) : List String :=
  match certsField resume_data with
  | .list xs => ((xs.map pyStr).filter (fun s => s != "")).map pyStripStr
  | _ => []

/-- The fallback matcher as claim C4 words it: the fraction of DISTINCT
normalized skills present in the token set of the job text, the job text
tokenized into alphanumeric runs.  `truncate(min(100, fraction * 100))`
of the nonnegative fraction `present / distinct` is rendered as the
natural floor division `min 100 (100 * present / distinct)`. -/
def fallbackDistinctSpec (resume_data : Resume) (job_text : String) : Int :=
  match skillsField resume_data with
  | .list xs =>
    let distinctSkills := ((xs.filter PyVal.truthy).map normSkill).dedup
    let job_words := ((alnumRuns job_text).map
      (fun w => pyLowerStr (pyStripStr w))).dedup
    if distinctSkills.isEmpty || job_words.isEmpty then 0
    else
      let nPresent :=
        (distinctSkills.filter (fun sk => job_words.contains sk)).length
      ((min 100 ((100 * nPresent) / distinctSkills.length : ℕ) : ℕ) : Int)
  | _ => 0

/-- The fallback matcher as amended: the fraction is taken over the skill
LIST (duplicates counted, falsy entries dropped), a skill counts when its
normalized form is a member of the token set, tokens being maximal runs
of word characters (alphanumerics or underscore) of the job text,
stripped and lowercased.  `truncate(min(100, fraction * 100))` is
rendered as the natural floor division, as in the code model. -/
def fallbackMultisetSpec (resume_data : Resume) (job_text : String) : Int :=
  match skillsField resume_data with
  | .list xs =>
    let sk := (xs.filter PyVal.truthy).map normSkill
    let tk := ((pyWordRuns job_text).map (fun w => pyLowerStr (pyStripStr w))).dedup
    if sk.isEmpty || tk.isEmpty then 0
    else ((min 100 ((100 * sk.countP (fun s => tk.contains s)) / sk.length) : ℕ) : Int)
  | _ => 0


/-- The normalized skill list of the fallback matcher (duplicates kept,
falsy entries dropped); empty when the skills field is not a list. -/
def fallbackSkillList (resume_data : Resume) : List String :=
  match skillsField resume_data with
  | .list xs => (xs.filter PyVal.truthy).map normSkill
  | _ => []

/-- The token set of the fallback matcher: maximal word-character runs of
the job text, stripped and lowercased, deduplicated. -/
def fallbackTokens (job_text : String) : List String :=
  ((pyWordRuns job_text).map (fun w => pyLowerStr (pyStripStr w))).dedup

/-- The fraction of the fallback matcher: skill-list entries whose
normalized form is in the token set, divided by the number of entries
(duplicates counted on both sides of the division). -/
def fallbackFraction (resume_data : Resume) (job_text : String) : ℚ :=
  (((fallbackSkillList resume_data).countP
      (fun s => (fallbackTokens job_text).contains s) : ℕ) : ℚ)
    / ((fallbackSkillList resume_data).length : ℚ)

lemma pyTrunc_nonneg {q : ℚ} (h : 0 ≤ q) : 0 ≤ pyTrunc q := by
  unfold pyTrunc
  rw [if_pos h]
  exact Int.le_floor.mpr (by exact_mod_cast h)

lemma pyTrunc_le_of_le {q : ℚ} {n : ℤ} (h0 : 0 ≤ q) (h : q ≤ (n : ℚ)) :
    pyTrunc q ≤ n := by
  unfold pyTrunc
  rw [if_pos h0]
  calc ⌊q⌋ ≤ ⌊(n : ℚ)⌋ := Int.floor_le_floor h
    _ = n := Int.floor_intCast n

lemma pyTrunc_natCast_div (m L : ℕ) :
    pyTrunc ((m : ℚ) / (L : ℚ)) = ((m / L : ℕ) : ℤ) := by
  unfold pyTrunc
  rw [if_pos (by positivity)]
  exact_mod_cast Nat.floor_div_nat (m : ℚ) L

lemma pyTrunc_ratio_15 (m L : ℕ) :
    pyTrunc (((m : ℚ) / (L : ℚ)) * 15) = ((15 * m / L : ℕ) : ℤ) := by
  have h : ((m : ℚ) / (L : ℚ)) * 15 = ((15 * m : ℕ) : ℚ) / (L : ℚ) := by
    push_cast
    ring
  rw [h, pyTrunc_natCast_div]

lemma floor_min_rat (a b : ℚ) : ⌊min a b⌋ = min ⌊a⌋ ⌊b⌋ := by
  rcases le_total a b with h | h
  · rw [min_eq_left h, min_eq_left (Int.floor_le_floor h)]
  · rw [min_eq_right h, min_eq_right (Int.floor_le_floor h)]

lemma pyTrunc_min100_ratio (m L : ℕ) :
    pyTrunc (min 100 (((m : ℚ) / (L : ℚ)) * 100)) = ((min 100 (100 * m / L) : ℕ) : ℤ) := by
  have hx : (0 : ℚ) ≤ ((m : ℚ) / (L : ℚ)) * 100 := by positivity
  unfold pyTrunc
  rw [if_pos (le_min (by norm_num) hx)]
  rw [floor_min_rat]
  have h1 : ⌊(100 : ℚ)⌋ = 100 := by norm_num
  have h2 : ⌊((m : ℚ) / (L : ℚ)) * 100⌋ = ((100 * m / L : ℕ) : ℤ) := by
    have h : ((m : ℚ) / (L : ℚ)) * 100 = ((100 * m : ℕ) : ℚ) / (L : ℚ) := by
      push_cast
      ring
    rw [h]
    exact_mod_cast Nat.floor_div_nat ((100 * m : ℕ) : ℚ) L
  rw [h1, h2]
  push_cast
  rfl

lemma skill_boost_eq_cases (r : Resume) (j : String) :
    calculate_skill_boost r j =
      if boostSkillSet r = [] then 0
      else pyTrunc (skillMatchFraction r j * 15) := by
  rcases h : skillsField r with _ | b | n | s | xs | kvs <;>
    simp only [calculate_skill_boost, boostSkillSet, skillMatchFraction, h,
      List.isEmpty_iff, pyTrunc_ratio_15, if_true]

lemma skill_boost_nonneg (r : Resume) (j : String) :
    0 ≤ calculate_skill_boost r j := by
  rcases h : skillsField r with _ | b | n | s | xs | kvs <;>
    simp only [calculate_skill_boost, h] <;> try exact le_refl 0
  split
  · exact le_refl 0
  · exact Int.natCast_nonneg _

lemma skill_boost_le (r : Resume) (j : String) :
    calculate_skill_boost r j ≤ 15 := by
  rcases h : skillsField r with _ | b | n | s | xs | kvs <;>
    simp only [calculate_skill_boost, h] <;> try norm_num
  split
  · norm_num
  · have hm : (((((xs.filter PyVal.truthy).map normSkill).dedup).filter
        (fun skill => pyContains (pyLowerStr j) skill)).length)
        ≤ (((xs.filter PyVal.truthy).map normSkill).dedup).length :=
      List.length_filter_le _ _
    have hdiv := Nat.div_le_of_le_mul
      (k := (((xs.filter PyVal.truthy).map normSkill).dedup).length)
      (n := 15)
      (by
        calc 15 * (((((xs.filter PyVal.truthy).map normSkill).dedup).filter
              (fun skill => pyContains (pyLowerStr j) skill)).length)
            = (((((xs.filter PyVal.truthy).map normSkill).dedup).filter
              (fun skill => pyContains (pyLowerStr j) skill)).length) * 15 :=
              Nat.mul_comm _ _
          _ ≤ (((xs.filter PyVal.truthy).map normSkill).dedup).length * 15 :=
              Nat.mul_le_mul_right 15 hm)
    exact_mod_cast hdiv

lemma fallback_nonneg (r : Resume) (j : String) :
    0 ≤ fallback_keyword_match r j := by
  rcases h : skillsField r with _ | b | n | s | xs | kvs <;>
    simp only [fallback_keyword_match, h] <;> try exact le_refl 0
  split
  · exact le_refl 0
  · exact Int.natCast_nonneg _

lemma fallback_le (r : Resume) (j : String) :
    fallback_keyword_match r j ≤ 100 := by
  rcases h : skillsField r with _ | b | n | s | xs | kvs <;>
    simp only [fallback_keyword_match, h] <;> try norm_num
  split
  · norm_num
  · exact_mod_cast Nat.min_le_left 100 _

lemma fallback_eq_multiset (r : Resume) (j : String) :
    fallback_keyword_match r j = fallbackMultisetSpec r j := by
  rcases h : skillsField r with _ | b | n | s | xs | kvs <;>
    simp only [fallback_keyword_match, fallbackMultisetSpec, h]
  rw [List.countP_eq_length_filter]
  split
  · rfl
  · next hc =>
    have hsk : ((xs.filter PyVal.truthy).map normSkill).isEmpty = false := by
      rcases Bool.or_eq_false_iff.mp (Bool.of_not_eq_true hc) with ⟨h1, _⟩
      exact h1
    have hlen : 1 ≤ ((xs.filter PyVal.truthy).map normSkill).length := by
      rcases hnil : (xs.filter PyVal.truthy).map normSkill with _ | ⟨a, t⟩
      · rw [hnil] at hsk
        simp at hsk
      · simp
    rw [Nat.max_eq_left hlen]

lemma fallback_eq_trunc (r : Resume) (j : String)
    (h1 : fallbackSkillList r ≠ []) (h2 : fallbackTokens j ≠ []) :
    fallback_keyword_match r j = pyTrunc (min 100 (fallbackFraction r j * 100)) := by
  rcases h : skillsField r with _ | b | n | s | xs | kvs <;>
    simp only [fallbackSkillList, h, ne_eq, not_true_eq_false] at h1
  rw [fallback_eq_multiset]
  simp only [fallbackMultisetSpec, fallbackFraction, fallbackSkillList, fallbackTokens, h]
  rw [pyTrunc_min100_ratio]
  have hsk : ((xs.filter PyVal.truthy).map normSkill).isEmpty = false := by
    rcases hnil : (xs.filter PyVal.truthy).map normSkill with _ | ⟨a, t⟩
    · exact absurd hnil h1
    · rfl
  have htk : (((pyWordRuns j).map (fun w => pyLowerStr (pyStripStr w))).dedup).isEmpty
      = false := by
    rcases hnil : ((pyWordRuns j).map (fun w => pyLowerStr (pyStripStr w))).dedup
        with _ | ⟨a, t⟩
    · exact absurd hnil (by simpa [fallbackTokens] using h2)
    · rfl
  rw [hsk, htk]
  rfl

lemma runsBy_all_neg (p : Char → Bool) (w : List Char)
    (hw : ∀ c ∈ w, p c = false) (acc : List Char) :
    runsBy p w acc = if acc.isEmpty then [] else [String.mk acc.reverse] := by
  induction w generalizing acc with
  | nil => rfl
  | cons c t ih =>
    have hc : p c = false := hw c (List.mem_cons_self c t)
    have ht : ∀ d ∈ t, p d = false := fun d hd => hw d (List.mem_cons_of_mem c hd)
    rcases acc with _ | ⟨a, as⟩
    · simp only [runsBy, hc, Bool.false_eq_true, if_false, List.isEmpty_nil, if_true]
      rw [ih ht []]
      rfl
    · simp only [runsBy, hc, Bool.false_eq_true, if_false, List.isEmpty_cons]
      rw [ih ht []]
      rfl

lemma runsBy_append_nonword (p : Char → Bool) (l w : List Char)
    (hw : ∀ c ∈ w, p c = false) (acc : List Char) :
    runsBy p (l ++ w) acc = runsBy p l acc := by
  induction l generalizing acc with
  | nil =>
    rw [List.nil_append, runsBy_all_neg p w hw acc]
    rfl
  | cons c t ih =>
    rcases hp : p c with hf | ht
    · rcases acc with _ | ⟨a, as⟩
      · simp only [List.cons_append, runsBy, hp, Bool.false_eq_true, if_false,
          List.isEmpty_nil, if_true]
        exact ih []
      · simp only [List.cons_append, runsBy, hp, Bool.false_eq_true, if_false,
          List.isEmpty_cons, List.append_eq]
        rw [ih []]
    · simp only [List.cons_append, runsBy, hp, if_true]
      exact ih (c :: acc)

lemma runsBy_nonword_prepend (p : Char → Bool) (w l : List Char)
    (hw : ∀ c ∈ w, p c = false) :
    runsBy p (w ++ l) [] = runsBy p l [] := by
  induction w with
  | nil => rfl
  | cons c t ih =>
    have hc : p c = false := hw c (List.mem_cons_self c t)
    have ht : ∀ d ∈ t, p d = false := fun d hd => hw d (List.mem_cons_of_mem c hd)
    simp only [List.cons_append, runsBy, hc, Bool.false_eq_true, if_false,
      List.isEmpty_nil, if_true]
    exact ih ht

lemma runsBy_strip (p : Char → Bool)
    (hp : ∀ c, pyIsSpace c = true → p c = false) (l : List Char) :
    runsBy p (pyStripList l) [] = runsBy p l [] := by
  have hfront : ∀ m : List Char, runsBy p (m.dropWhile pyIsSpace) [] = runsBy p m [] := by
    intro m
    conv_rhs => rw [(List.takeWhile_append_dropWhile (p := pyIsSpace) (l := m)).symm]
    rw [runsBy_nonword_prepend p _ _
      (fun c hc => hp c (List.mem_takeWhile_imp hc))]
  have hback : ∀ m : List Char,
      runsBy p ((m.reverse.dropWhile pyIsSpace).reverse) [] = runsBy p m [] := by
    intro m
    conv_rhs =>
      rw [(List.reverse_reverse m).symm,
        (List.takeWhile_append_dropWhile (p := pyIsSpace) (l := m.reverse)).symm,
        List.reverse_append]
    rw [runsBy_append_nonword p _ _
      (fun c hc => hp c (List.mem_takeWhile_imp (List.mem_reverse.mp hc)))]
  unfold pyStripList
  rw [hback, hfront]

lemma pyIsSpace_not_word (c : Char) (h : pyIsSpace c = true) :
    pyIsWordChar c = false := by
  have hc : c = ' ' ∨ c = '\t' ∨ c = '\n' ∨ c = '\r' ∨ c = '\x0b' ∨ c = '\x0c' := by
    simpa [pyIsSpace, or_assoc] using h
  rcases hc with h1 | h1 | h1 | h1 | h1 | h1 <;> rw [h1] <;> decide

lemma pyWordRuns_strip (s : String) :
    pyWordRuns (pyStripStr s) = pyWordRuns s := by
  unfold pyWordRuns pyStripStr
  exact runsBy_strip pyIsWordChar pyIsSpace_not_word s.toList

lemma fallback_strip_invariant (r : Resume) (t : String) :
    fallback_keyword_match r (pyStripStr t) = fallback_keyword_match r t := by
  rcases h : skillsField r with _ | b | n | s | xs | kvs <;>
    simp only [fallback_keyword_match, h, pyWordRuns_strip]

lemma lookup_mem {α β : Type} [BEq α] [LawfulBEq α] {l : List (α × β)} {a : α}
    {b : β} (h : List.lookup a l = some b) : (a, b) ∈ l := by
  rcases List.lookup_eq_some_iff.mp h with ⟨l1, l2, hl, hk⟩
  rw [hl]
  exact List.mem_append_right l1 (List.mem_cons_self (a, b) l2)

lemma lowerPairs_closed : ∀ p ∈ lowerPairs, List.lookup p.2 lowerPairs = Option.none := by
  decide

lemma pyLowerChar_idem (c : Char) : pyLowerChar (pyLowerChar c) = pyLowerChar c := by
  unfold pyLowerChar
  rcases h : List.lookup c lowerPairs with _ | d
  · rw [h]
  · rw [lowerPairs_closed (c, d) (lookup_mem h)]

lemma pyLowerStr_idem (s : String) : pyLowerStr (pyLowerStr s) = pyLowerStr s := by
  unfold pyLowerStr
  refine congrArg String.mk ?_
  show (s.toList.map pyLowerChar).map pyLowerChar = s.toList.map pyLowerChar
  rw [List.map_map]
  exact List.map_congr_left (fun c _ => pyLowerChar_idem c)

lemma pyLowerStr_eq_empty_iff (s : String) : pyLowerStr s = "" ↔ s = "" := by
  unfold pyLowerStr
  rw [show ("" : String) = String.mk [] from rfl]
  constructor
  · intro h
    have hl : s.toList.map pyLowerChar = [] := congrArg String.toList h
    have : s.toList = [] := List.map_eq_nil_iff.mp hl
    cases s
    exact congrArg String.mk this
  · intro h
    rw [h]
    rfl

lemma truthy_str_lower (s : String) :
    PyVal.truthy (.str (pyLowerStr s)) = PyVal.truthy (.str s) := by
  by_cases h : s = ""
  · rw [h]
    rfl
  · have h2 : pyLowerStr s ≠ "" := fun hc => h ((pyLowerStr_eq_empty_iff s).mp hc)
    show (pyLowerStr s != "") = (s != "")
    rw [bne_iff_ne.mpr h2, bne_iff_ne.mpr h]

lemma normSkill_str_lower (s : String) :
    normSkill (.str (pyLowerStr s)) = normSkill (.str s) := by
  unfold normSkill pyStr
  rw [pyLowerStr_idem]

lemma skillsField_skills_list (ys : List PyVal) :
    skillsField [("skills", PyVal.list ys)] =
      if ys.isEmpty then PyVal.list [] else PyVal.list ys := by
  rcases ys with _ | ⟨a, t⟩
  · rfl
  · rfl

lemma boost_lower_invariant (xs : List String) (j : String) :
    calculate_skill_boost [("skills", PyVal.list (xs.map PyVal.str))] j
      = calculate_skill_boost
          [("skills", PyVal.list ((xs.map pyLowerStr).map PyVal.str))]
          (pyLowerStr j) := by
  rcases xs with _ | ⟨x, xt⟩
  · rfl
  · have h1 : (((x :: xt).map PyVal.str)).isEmpty = false := rfl
    have h2 : ((((x :: xt).map pyLowerStr)).map PyVal.str).isEmpty = false := rfl
    have hlists : ((((x :: xt).map pyLowerStr).map PyVal.str).filter PyVal.truthy).map normSkill
        = ((((x :: xt).map PyVal.str)).filter PyVal.truthy).map normSkill := by
      rw [List.map_map, List.filter_map, List.filter_map, List.map_map, List.map_map]
      rw [List.filter_congr (fun s _ => by
        show (PyVal.truthy ∘ (PyVal.str ∘ pyLowerStr)) s = (PyVal.truthy ∘ PyVal.str) s
        exact truthy_str_lower s)]
      exact List.map_congr_left (fun s _ => normSkill_str_lower s)
    simp only [calculate_skill_boost, skillsField_skills_list, h1, h2,
      Bool.false_eq_true, if_false, hlists, pyLowerStr_idem]

lemma clean_of_str_map (xs : List PyVal) :
    ((xs.map (fun s => PyVal.str (pyStr s))).filter PyVal.truthy).map
      (fun p => pyStripStr (pyStr p))
    = ((xs.map pyStr).filter (fun s => s != "")).map pyStripStr := by
  rw [List.filter_map, List.map_map, List.filter_map, List.map_map]
  rfl

lemma clean_of_entry_map (f : PyVal → List PyVal) (xs : List PyVal) :
    (((xs.map f).flatten.filter PyVal.truthy).map (fun p => pyStripStr (pyStr p)))
    = (xs.map (fun e => ((f e).filter PyVal.truthy).map
        (fun p => pyStripStr (pyStr p)))).flatten := by
  rw [List.filter_flatten, List.map_flatten, List.map_map, List.map_map]
  rfl

lemma skillParts_clean (r : Resume) :
    ((skillParts r).filter PyVal.truthy).map (fun p => pyStripStr (pyStr p))
      = skillFrags r := by
  rcases h : skillsField r with _ | b | n | s | xs | kvs <;>
    simp only [skillParts, skillFrags, h, List.filter_nil, List.map_nil]
  exact clean_of_str_map xs

lemma expParts_clean (r : Resume) :
    ((expParts r).filter PyVal.truthy).map (fun p => pyStripStr (pyStr p))
      = expFrags r := by
  rcases h : expField r with _ | b | n | s | xs | kvs <;>
    simp only [expParts, expFrags, h, List.filter_nil, List.map_nil]
  exact clean_of_entry_map expEntryParts xs

lemma eduParts_clean (r : Resume) :
    ((eduParts r).filter PyVal.truthy).map (fun p => pyStripStr (pyStr p))
      = eduFrags r := by
  rcases h : eduField r with _ | b | n | s | xs | kvs <;>
    simp only [eduParts, eduFrags, h, List.filter_nil, List.map_nil]
  exact clean_of_entry_map eduEntryParts xs

lemma projParts_clean (r : Resume) :
    ((projParts r).filter PyVal.truthy).map (fun p => pyStripStr (pyStr p))
      = projFrags r := by
  rcases h : projField r with _ | b | n | s | xs | kvs <;>
    simp only [projParts, projFrags, h, List.filter_nil, List.map_nil]
  exact clean_of_entry_map projEntryParts xs

lemma sumParts_clean (r : Resume) :
    ((sumParts r).filter PyVal.truthy).map (fun p => pyStripStr (pyStr p))
      = summaryFrags r := by
  unfold sumParts summaryFrags
  rcases hv : (summaryField r).truthy
  · rfl
  · simp only [if_true]
    by_cases h : pyStr (summaryField r) = ""
    · rw [List.filter_singleton, List.filter_singleton]
      have ht : PyVal.truthy (.str (pyStr (summaryField r))) = false := by
        rw [h]
        rfl
      rw [ht, h]
      rfl
    · rw [List.filter_singleton, List.filter_singleton]
      have hb : (pyStr (summaryField r) != "") = true := bne_iff_ne.mpr h
      have ht : PyVal.truthy (.str (pyStr (summaryField r))) = true := hb
      rw [ht, hb]
      rfl

lemma certParts_clean (r : Resume) :
    ((certParts r).filter PyVal.truthy).map (fun p => pyStripStr (pyStr p))
      = certFrags r := by
  rcases h : certsField r with _ | b | n | s | xs | kvs <;>
    simp only [certParts, certFrags, h, List.filter_nil, List.map_nil]
  exact clean_of_str_map xs

lemma extract_eq_frags (r : Resume) :
    extract_resume_text r = String.intercalate " "
      (skillFrags r ++ expFrags r ++ eduFrags r ++ projFrags r
        ++ summaryFrags r ++ certFrags r) := by
  unfold extract_resume_text
  simp only [List.filter_append, List.map_append]
  rw [skillParts_clean, expParts_clean, eduParts_clean, projParts_clean,
    sumParts_clean, certParts_clean]

lemma sectionCount_nonneg (v : PyVal) : 0 ≤ sectionCount v := by
  rcases v with _ | b | n | s | xs | kvs
  · decide
  · dsimp only [sectionCount]
    split <;> norm_num
  · dsimp only [sectionCount]
    split <;> norm_num
  · dsimp only [sectionCount]
    split <;> norm_num
  · exact Int.natCast_nonneg _
  · dsimp only [sectionCount]
    split <;> norm_num

lemma lookup_extracted_single (v : PyVal) :
    List.lookup "skills_extracted" ([("skills", v)] : Resume) = Option.none := rfl

lemma lookup_keywords_single (v : PyVal) :
    List.lookup "keywords" ([("skills", v)] : Resume) = Option.none := rfl

lemma skillsField_single (v : PyVal) :
    skillsField [("skills", v)] = if v.truthy then v else PyVal.list [] := by
  unfold skillsField pyGet
  rw [List.lookup_cons_self, lookup_extracted_single, lookup_keywords_single]
  unfold pyOr
  cases hv : v.truthy
  · simp [hv, PyVal.truthy]
  · simp [hv]

lemma extract_skills_str (s : String) :
    extract_resume_text [("skills", PyVal.str s)] = "" := by
  have h1 : skillParts [("skills", PyVal.str s)] = [] := by
    unfold skillParts
    rw [skillsField_single]
    cases ht : PyVal.truthy (PyVal.str s)
    · rw [if_neg (by simp [ht])]
      rfl
    · rw [if_pos (by simp [ht])]
  unfold extract_resume_text
  rw [h1]
  rfl

lemma boost_skills_str (s j : String) :
    calculate_skill_boost [("skills", PyVal.str s)] j = 0 := by
  unfold calculate_skill_boost
  rw [skillsField_single]
  cases ht : PyVal.truthy (PyVal.str s)
  · rw [if_neg (by simp [ht])]
    rfl
  · rw [if_pos (by simp [ht])]

lemma fallback_skills_str (s j : String) :
    fallback_keyword_match [("skills", PyVal.str s)] j = 0 := by
  unfold fallback_keyword_match
  rw [skillsField_single]
  cases ht : PyVal.truthy (PyVal.str s)
  · rw [if_neg (by simp [ht])]
    rfl
  · rw [if_pos (by simp [ht])]

lemma match_score_empty (o : PipelineOutcome) (r : Resume) (d q : String)
    (h : extract_resume_text r = "" ∨ combinedJobText d q = "") :
    calculate_match_score o r d q = 0 := by
  unfold calculate_match_score
  rcases h with h | h <;> rw [h] <;> simp

lemma cond_false_of_nonempty {r : Resume} {d q : String}
    (h1 : extract_resume_text r ≠ "") (h2 : combinedJobText d q ≠ "") :
    ((extract_resume_text r == "") || (combinedJobText d q == "")) = false := by
  simp [h1, h2]

lemma match_score_success (sim : ℚ) (r : Resume) (d q : String)
    (h1 : extract_resume_text r ≠ "") (h2 : combinedJobText d q ≠ "") :
    calculate_match_score (.success sim) r d q
      = min 100 (pyTrunc (sim * 100)
          + calculate_skill_boost r (combinedJobText d q)) := by
  simp only [calculate_match_score, cond_false_of_nonempty h1 h2,
    Bool.false_eq_true, if_false]

lemma match_score_vecFailure (r : Resume) (d q : String)
    (h1 : extract_resume_text r ≠ "") (h2 : combinedJobText d q ≠ "") :
    calculate_match_score .vecFailure r d q
      = fallback_keyword_match r (combinedJobText d q) := by
  simp only [calculate_match_score, cond_false_of_nonempty h1 h2,
    Bool.false_eq_true, if_false]

lemma match_score_otherError (r : Resume) (d q : String)
    (h1 : extract_resume_text r ≠ "") (h2 : combinedJobText d q ≠ "") :
    calculate_match_score .otherError r d q
      = fallback_keyword_match r (d ++ " " ++ q) := by
  simp only [calculate_match_score, cond_false_of_nonempty h1 h2,
    Bool.false_eq_true, if_false]

/-- Claim C1: for every resume record and every pair of job strings (and
every similarity the sklearn pipeline can actually produce),
`calculate_match_score` returns an integer in `[0, 100]`, and for every
resume record the completeness score is an integer in `[0, 100]`;
neither result is ever negative or greater than 100. -/
theorem claim1_scores_in_range :
    (∀ (o : PipelineOutcome) (r : Resume) (d q : String), o.valid →
      0 ≤ calculate_match_score o r d q ∧ calculate_match_score o r d q ≤ 100)
    ∧ (∀ r : Resume,
      0 ≤ compute_completeness_score r ∧ compute_completeness_score r ≤ 100) := by
  constructor
  · intro o r d q hv
    by_cases hre : extract_resume_text r = ""
    · rw [match_score_empty o r d q (Or.inl hre)]
      exact ⟨le_refl 0, by norm_num⟩
    by_cases hjt : combinedJobText d q = ""
    · rw [match_score_empty o r d q (Or.inr hjt)]
      exact ⟨le_refl 0, by norm_num⟩
    cases o with
    | success sim =>
      obtain ⟨hs0, hs1⟩ := hv
      rw [match_score_success sim r d q hre hjt]
      have hb0 : 0 ≤ pyTrunc (sim * 100) :=
        pyTrunc_nonneg (mul_nonneg hs0 (by norm_num))
      refine ⟨le_min (by norm_num) (add_nonneg hb0 (skill_boost_nonneg r _)), ?_⟩
      exact min_le_left 100 _
    | vecFailure =>
      rw [match_score_vecFailure r d q hre hjt]
      exact ⟨fallback_nonneg r _, fallback_le r _⟩
    | otherError =>
      rw [match_score_otherError r d q hre hjt]
      exact ⟨fallback_nonneg r _, fallback_le r _⟩
  · intro r
    simp only [compute_completeness_score]
    have h1 : 0 ≤ min 30 (sectionCount (pyGet r "skills" (.list [])) * 3) :=
      le_min (by norm_num) (mul_nonneg (sectionCount_nonneg _) (by norm_num))
    have h2 : 0 ≤ min 25 (sectionCount (pyGet r "work_experience" (.list [])) * 8) :=
      le_min (by norm_num) (mul_nonneg (sectionCount_nonneg _) (by norm_num))
    have h3 : 0 ≤ min 20 (sectionCount (pyGet r "education" (.list [])) * 10) :=
      le_min (by norm_num) (mul_nonneg (sectionCount_nonneg _) (by norm_num))
    have h4 : 0 ≤ min 15 (sectionCount (pyGet r "certifications" (.list [])) * 5) :=
      le_min (by norm_num) (mul_nonneg (sectionCount_nonneg _) (by norm_num))
    have h5 : 0 ≤ min 10 (sectionCount (pyGet r "projects" (.list [])) * 5) :=
      le_min (by norm_num) (mul_nonneg (sectionCount_nonneg _) (by norm_num))
    refine ⟨le_min (by norm_num) ?_, min_le_left 100 _⟩
    exact add_nonneg (add_nonneg (add_nonneg (add_nonneg h1 h2) h3) h4) h5

/-- Witness for claim C1 at a concrete input: the bounds hold for the
successful pipeline outcome with similarity 0 on a one-skill resume, and
for the completeness score of that resume. -/
theorem claim1_scores_in_range_witness :
    (0 ≤ calculate_match_score (.success 0)
        [("skills", PyVal.list [.str "python"])] "python developer" ""
      ∧ calculate_match_score (.success 0)
        [("skills", PyVal.list [.str "python"])] "python developer" "" ≤ 100)
    ∧ (0 ≤ compute_completeness_score [("skills", PyVal.list [.str "python"])]
      ∧ compute_completeness_score [("skills", PyVal.list [.str "python"])] ≤ 100) :=
  ⟨claim1_scores_in_range.1 (.success 0) [("skills", PyVal.list [.str "python"])]
      "python developer" "" ⟨le_refl 0, zero_le_one⟩,
    claim1_scores_in_range.2 [("skills", PyVal.list [.str "python"])]⟩

/-- Claim C2: on the success path (both texts nonempty, vectorization
succeeds with cosine similarity `sim`), the engine returns
`min(100, base + boost)` with `base = int(sim * 100)` (truncation, not
rounding) and `boost` the skill-overlap boost; and the base score lies in
`[0, 100]` whenever the similarity is a valid cosine value in `[0, 1]`. -/
theorem claim2_success_path :
    ∀ (sim : ℚ) (r : Resume) (d q : String),
      extract_resume_text r ≠ "" → combinedJobText d q ≠ "" →
      (calculate_match_score (.success sim) r d q
        = min 100 (pyTrunc (sim * 100)
            + calculate_skill_boost r (combinedJobText d q)))
      ∧ (0 ≤ sim → sim ≤ 1 →
        0 ≤ pyTrunc (sim * 100) ∧ pyTrunc (sim * 100) ≤ 100) := by
  intro sim r d q h1 h2
  refine ⟨match_score_success sim r d q h1 h2, fun hs0 hs1 => ?_⟩
  refine ⟨pyTrunc_nonneg (mul_nonneg hs0 (by norm_num)), ?_⟩
  refine pyTrunc_le_of_le (mul_nonneg hs0 (by norm_num)) ?_
  push_cast
  calc sim * 100 ≤ 1 * 100 := mul_le_mul_of_nonneg_right hs1 (by norm_num)
    _ = 100 := one_mul 100

/-- Witness for claim C2: a one-skill resume against the job text
"python developer" with similarity 0 satisfies both hypotheses, and the
success-path formula holds there. -/
theorem claim2_success_path_witness :
    calculate_match_score (.success 0) [("skills", PyVal.list [.str "python"])]
        "python developer" ""
      = min 100 (pyTrunc (0 * 100)
          + calculate_skill_boost [("skills", PyVal.list [.str "python"])]
              (combinedJobText "python developer" "")) :=
  (claim2_success_path 0 [("skills", PyVal.list [.str "python"])]
    "python developer" "" (by decide) (by decide)).1

/-- Claim C3: whenever the vectorize/similarity pipeline fails — the
degenerate-vocabulary `ValueError` of `fit_transform` or any other
exception inside the pipeline — the engine returns exactly the fallback
matcher's result on the same resume and combined job text, with no boost
added; the two failure branches (which pass the stripped and the
unstripped combination respectively) agree because the fallback is
insensitive to surrounding whitespace.  No exception propagates: the
model is a total function, every input yielding a defined integer. -/
theorem claim3_failure_fallback :
    ∀ (r : Resume) (d q : String),
      extract_resume_text r ≠ "" → combinedJobText d q ≠ "" →
      (calculate_match_score .vecFailure r d q
        = fallback_keyword_match r (combinedJobText d q))
      ∧ (calculate_match_score .otherError r d q
        = fallback_keyword_match r (d ++ " " ++ q))
      ∧ (fallback_keyword_match r (d ++ " " ++ q)
        = fallback_keyword_match r (combinedJobText d q)) := by
  intro r d q h1 h2
  refine ⟨match_score_vecFailure r d q h1 h2,
    match_score_otherError r d q h1 h2, ?_⟩
  exact (fallback_strip_invariant r (d ++ " " ++ q)).symm

/-- Witness for claim C3: the one-skill resume against "python developer"
satisfies the nonemptiness hypotheses; both failure branches return the
fallback result there. -/
theorem claim3_failure_fallback_witness :
    calculate_match_score .vecFailure [("skills", PyVal.list [.str "python"])]
        "python developer" ""
      = fallback_keyword_match [("skills", PyVal.list [.str "python"])]
          (combinedJobText "python developer" "") :=
  (claim3_failure_fallback [("skills", PyVal.list [.str "python"])]
    "python developer" "" (by decide) (by decide)).1

/-- Claim C10 (implicit): the engine returns 0 immediately whenever
EITHER the flattened resume text OR the combined job text is empty — the
result is 0 for every pipeline outcome, so neither the TF-IDF path, the
boost, nor the fallback can influence it. -/
theorem claim10_empty_short_circuit :
    ∀ (o : PipelineOutcome) (r : Resume) (d q : String),
      (extract_resume_text r = "" ∨ combinedJobText d q = "") →
      calculate_match_score o r d q = 0 := by
  intro o r d q h
  exact match_score_empty o r d q h

/-- Witness for claim C10: an empty resume scores 0 against the nonempty
job text "python developer" even when the pipeline would report perfect
similarity 1. -/
theorem claim10_empty_short_circuit_witness :
    calculate_match_score (.success 1) [] "python developer" "" = 0 :=
  claim10_empty_short_circuit (.success 1) [] "python developer" ""
    (Or.inl (by decide))

/-- Counterexample for claim C4: the code computes the fraction over the
skill LIST, not over DISTINCT skills, and its tokens are word-character
runs (underscore included), not purely alphanumeric runs.  With skills
["python", "python", "java"] against job text "python python" the code
returns 66 where the claimed distinct-fraction formula gives 50; with the
single skill "python" against "python_dev" the code returns 0 where the
claimed formula gives 100. -/
theorem claim4_counterexample :
    (fallback_keyword_match
        [("skills", PyVal.list [.str "python", .str "python", .str "java"])]
        "python python" = 66
      ∧ fallbackDistinctSpec
        [("skills", PyVal.list [.str "python", .str "python", .str "java"])]
        "python python" = 50)
    ∧ (fallback_keyword_match [("skills", PyVal.list [.str "python"])]
        "python_dev" = 0
      ∧ fallbackDistinctSpec [("skills", PyVal.list [.str "python"])]
        "python_dev" = 100) := by
  exact ⟨⟨by decide, by decide⟩, ⟨by decide, by decide⟩⟩

/-- Claim C4 as amended: the fallback matcher tokenizes the job text into
case-insensitive word-character runs (alphanumerics or underscore) and
scores `truncate(min(100, fraction * 100))`, where the fraction counts
skill-LIST entries (duplicates retained, falsy entries dropped) whose
normalized form is in the token set, divided by the number of entries;
the result is 0 when the skills field is not a list, when no truthy
skill remains, or when the job text has no tokens, and it always lies in
`[0, 100]`. -/
theorem claim4_fallback_formula :
    ∀ (r : Resume) (j : String),
      fallback_keyword_match r j = fallbackMultisetSpec r j
      ∧ 0 ≤ fallback_keyword_match r j
      ∧ fallback_keyword_match r j ≤ 100
      ∧ (fallbackSkillList r ≠ [] → fallbackTokens j ≠ [] →
        fallback_keyword_match r j
          = pyTrunc (min 100 (fallbackFraction r j * 100))) := by
  intro r j
  exact ⟨fallback_eq_multiset r j, fallback_nonneg r j, fallback_le r j,
    fun h1 h2 => fallback_eq_trunc r j h1 h2⟩

/-- Witness for claim C4 as amended: the single-skill resume against
"python dev" has a nonempty skill list and token set, and the truncated
fraction formula holds there. -/
theorem claim4_fallback_formula_witness :
    fallback_keyword_match [("skills", PyVal.list [.str "python"])] "python dev"
      = pyTrunc (min 100
          (fallbackFraction [("skills", PyVal.list [.str "python"])] "python dev"
            * 100)) :=
  (claim4_fallback_formula [("skills", PyVal.list [.str "python"])]
    "python dev").2.2.2 (by decide) (by decide)

/-- Claim C5: the skill-overlap boost equals
`truncate(match_fraction * 15)` where the fraction is taken over the set
of distinct normalized (truthy, lowercased, trimmed) skills, counting
those that occur as literal substrings of the lowercased job text; it is
0 when the candidate has no skills, and always lies in `[0, 15]`. -/
theorem claim5_boost_formula :
    ∀ (r : Resume) (j : String),
      0 ≤ calculate_skill_boost r j
      ∧ calculate_skill_boost r j ≤ 15
      ∧ (boostSkillSet r = [] → calculate_skill_boost r j = 0)
      ∧ (boostSkillSet r ≠ [] →
        calculate_skill_boost r j = pyTrunc (skillMatchFraction r j * 15)) := by
  intro r j
  refine ⟨skill_boost_nonneg r j, skill_boost_le r j, fun h => ?_, fun h => ?_⟩
  · rw [skill_boost_eq_cases, if_pos h]
  · rw [skill_boost_eq_cases, if_neg h]

/-- Witness for claim C5: the two-skill resume ["Python", "SQL"] against
"python developer" has a nonempty distinct skill set and the truncated
fraction formula holds there. -/
theorem claim5_boost_formula_witness :
    calculate_skill_boost [("skills", PyVal.list [.str "Python", .str "SQL"])]
        "python developer"
      = pyTrunc (skillMatchFraction
          [("skills", PyVal.list [.str "Python", .str "SQL"])]
          "python developer" * 15) :=
  (claim5_boost_formula [("skills", PyVal.list [.str "Python", .str "SQL"])]
    "python developer").2.2.2 (by decide)

/-- Claim C6: the completeness score is
`min(100, min(30, skills*3) + min(25, experience*8) + min(20, education*10)
+ min(15, certifications*5) + min(10, projects*5))`, each count being the
length of a list field, 1 for a truthy non-list field and 0 otherwise;
a resume with 2 skills, 1 work entry, no education, no certifications and
1 project scores exactly `6 + 8 + 5 = 19`.  The scorer is a total
function and never fails. -/
theorem claim6_completeness_formula :
    (∀ r : Resume, compute_completeness_score r =
      min 100 (min 30 (sectionCount (pyGet r "skills" (.list [])) * 3)
        + min 25 (sectionCount (pyGet r "work_experience" (.list [])) * 8)
        + min 20 (sectionCount (pyGet r "education" (.list [])) * 10)
        + min 15 (sectionCount (pyGet r "certifications" (.list [])) * 5)
        + min 10 (sectionCount (pyGet r "projects" (.list [])) * 5)))
    ∧ compute_completeness_score
        [("skills", .list [.str "python", .str "sql"]),
         ("work_experience", .list [.dict [("title", .str "dev")]]),
         ("education", .list []),
         ("certifications", .list []),
         ("projects", .list [.str "demo"])] = 19 :=
  ⟨fun r => rfl, by decide⟩

/-- Counterexample for claim C7: with the skills list
[None, "a", " ", "b"] the flattener emits the literal four-character
fragment "None" (because `str(None)` is truthy and survives the filter)
and the whitespace skill trims to an empty fragment that still receives
a join position, so the output is "None a  b" with a double space; the
claimed contract (non-strings coerced to empty and dropped, empty
fragments dropped before joining) would give "a b". -/
theorem claim7_counterexample :
    extract_resume_text [("skills", PyVal.list [.none, .str "a", .str " ", .str "b"])]
      = "None a  b"
    ∧ flattenSpec [("skills", PyVal.list [.none, .str "a", .str " ", .str "b"])]
      = "a b" := by
  exact ⟨by decide, by decide⟩

/-- Claim C7 as amended: the flattener concatenates, in order, the skill,
experience (title, company, description), education (degree, institution,
field), project (name, description), summary and certification
fragments; fragments that are falsy BEFORE stringification are dropped
(so a missing or None subfield contributes nothing), the survivors are
stringified with Python `str()` — a None element of the skills or
certifications lists is stringified first and therefore inserts the
literal fragment "None" — then trimmed, and joined with single spaces
even when a fragment trims to the empty string. -/
theorem claim7_flattener_order :
    ∀ r : Resume, extract_resume_text r = String.intercalate " "
      (skillFrags r ++ expFrags r ++ eduFrags r ++ projFrags r
        ++ summaryFrags r ++ certFrags r) :=
  fun r => extract_eq_frags r

/-- Counterexample for claim C8: the skill boost lowercases but never
strips accents, so the declared skill "Ñode.js" (which lowercases to
"ñode.js") is not a substring of the job text "node.js": the match
fraction is 0 and the boost is 0, where the claim demands a match
(fraction 1, boost 15). -/
theorem claim8_counterexample :
    calculate_skill_boost [("skills", PyVal.list [.str "Ñode.js"])] "node.js" = 0
    ∧ skillMatchFraction [("skills", PyVal.list [.str "Ñode.js"])] "node.js" = 0 := by
  constructor
  · decide
  · have h1 : ((boostSkillSet [("skills", PyVal.list [.str "Ñode.js"])]).filter
        (fun sk => pyContains (pyLowerStr "node.js") sk)).length = 0 := by decide
    have h2 : (boostSkillSet [("skills", PyVal.list [.str "Ñode.js"])]).length = 1 := by
      decide
    unfold skillMatchFraction
    rw [h1, h2]
    norm_num

/-- Claim C8 as amended: skill matching is case-insensitive but
accent-sensitive: the boost depends only on the lowercased skills and
the lowercased job text, so case differences in either direction cannot
change it, while an accented skill does not match its unaccented form
(see the counterexample). -/
theorem claim8_case_insensitive_only :
    ∀ (xs : List String) (j : String),
      calculate_skill_boost [("skills", PyVal.list (xs.map PyVal.str))] j
        = calculate_skill_boost
            [("skills", PyVal.list ((xs.map pyLowerStr).map PyVal.str))]
            (pyLowerStr j) :=
  fun xs j => boost_lower_invariant xs j

/-- Counterexample for claim C9: a skills field holding the single string
"python" (instead of a list) is silently discarded, not coerced: the
flattened text is empty and both the skill boost and the fallback matcher
return 0 against the job text "python developer", where the claim demands
the skill to contribute (nonempty text, boost 15, fallback 100). -/
theorem claim9_counterexample :
    extract_resume_text [("skills", PyVal.str "python")] = ""
    ∧ calculate_skill_boost [("skills", PyVal.str "python")] "python developer" = 0
    ∧ fallback_keyword_match [("skills", PyVal.str "python")] "python developer" = 0 := by
  exact ⟨by decide, by decide, by decide⟩

/-- Claim C9 as amended: a string-valued skills field never raises an
error, but it is ignored rather than coerced: for every string `s` the
flattener produces the empty text from a resume whose skills field is
the bare string `s`, and the skill boost and fallback matcher return 0
on it for every job text. -/
theorem claim9_string_skills_ignored :
    ∀ (s j : String),
      extract_resume_text [("skills", PyVal.str s)] = ""
      ∧ calculate_skill_boost [("skills", PyVal.str s)] j = 0
      ∧ fallback_keyword_match [("skills", PyVal.str s)] j = 0 :=
  fun s j => ⟨extract_skills_str s, boost_skills_str s j, fallback_skills_str s j⟩
